import Mathlib

/-!
Verification development for the `data-diff` Athena adapter and report projector.

Shallow embedding of `src/data_diff/databases/athena.py` (the Athena SQL dialect
and database adapter) and, modelled from the spec where the code is not in
`src/`, the report projector exercised by `src/tests/test_format.py`.
-/

/- ===================== Constants ===================== -/

/-- Modelled from the spec: `MD5_HEXDIGITS` is imported from
`data_diff.databases.base`, which is not in `src/`.  An MD5 digest is 128 bits,
rendered as a 32-digit hex string (the spec and the claims speak of the
"32-digit hex digest"). -/
def MD5_HEXDIGITS : Nat := 32

/-- Modelled from the spec: `CHECKSUM_HEXDIGITS` is imported from
`data_diff.databases.base`, which is not in `src/`.  Per the spec the hash is
"truncated/cast to a portable integer width"; the portable width is half of the
128-bit digest, i.e. 64 bits = 16 hex digits. -/
def CHECKSUM_HEXDIGITS : Nat := 16

/-- Modelled from the spec: `CHECKSUM_OFFSET` is imported from
`data_diff.databases.base`, which is not in `src/`.  Per the spec it is the
offset that moves the unsigned truncated hash "to fit a common signed range",
i.e. half of the 64-bit span. -/
def CHECKSUM_OFFSET : Nat := 2 ^ 63

/-- Modelled from the spec: `TIMESTAMP_PRECISION_POS` is imported from
`data_diff.databases.base`, which is not in `src/`.  It is the character
position right after the seconds dot in the canonical timestamp rendering
`YYYY-MM-DD HH:MM:SS.`, i.e. 20. -/
def TIMESTAMP_PRECISION_POS : Nat := 20

/-- `Dialect.ROUNDS_ON_PREC_LOSS` (athena.py line 60). -/
def ROUNDS_ON_PREC_LOSS : Bool := true

/- ===================== md5_as_int ===================== -/

/-- `Dialect.md5_as_int` (athena.py lines 150-151): the emitted checksum SQL
expression for a comparable expression `s`. -/
def md5_as_int (s : String) : String :=
  "cast(from_base(substr(to_hex(md5(to_utf8(" ++ s ++ "))), "
    ++ toString (1 + MD5_HEXDIGITS - CHECKSUM_HEXDIGITS)
    ++ "), 16) as decimal(38, 0)) - " ++ toString CHECKSUM_OFFSET

/-- `Dialect.md5_as_hex` (athena.py lines 153-154). -/
def md5_as_hex (s : String) : String :=
  "to_hex(md5(to_utf8(" ++ s ++ ")))"

/-- Big-endian base-16 digit rendering of `n`, padded/truncated on the left to
width `w`: the semantics of Presto's `to_hex` applied to a `w/2`-byte value.
Each entry is a digit value `< 16`. -/
def toHexDigits : Nat → Nat → List Nat
  | 0, _ => []
  | w + 1, n => toHexDigits w (n / 16) ++ [n % 16]

/-- Semantics of Presto's `from_base(s, 16)` on a hex-digit string. -/
def fromBase16 (ds : List Nat) : Nat :=
  ds.foldl (fun a d => 16 * a + d) 0

/-- Semantics of Presto's two-argument `substr(s, pos)`: 1-based, to the end. -/
def substr1 (ds : List Nat) (pos : Nat) : List Nat :=
  ds.drop (pos - 1)

/-- Denotation of the SQL expression emitted by `md5_as_int`, as a function of
the 128-bit MD5 digest of the UTF-8 bytes of the input: take the hex digest,
keep the substring starting at 1-based position
`1 + MD5_HEXDIGITS - CHECKSUM_HEXDIGITS`, read it back in base 16, and subtract
`CHECKSUM_OFFSET` (the `cast` to `decimal(38, 0)` is the identity on these
integer values). -/
def md5_as_int_sem (digest : Nat) : Int :=
  (fromBase16 (substr1 (toHexDigits MD5_HEXDIGITS digest)
      (1 + MD5_HEXDIGITS - CHECKSUM_HEXDIGITS)) : Int)
    - (CHECKSUM_OFFSET : Int)

/- ===================== normalize_timestamp ===================== -/

/-- The precision/rounds payload of `Timestamp`/`TimestampTZ` column types, the
part of `TemporalType` that `normalize_timestamp` reads. -/
structure TemporalType where
  precision : Nat
  rounds : Bool
deriving DecidableEq

/-- `Dialect.normalize_timestamp` (athena.py lines 160-167).  Both branches of
the `rounds` conditional are kept verbatim from the source (they are
character-identical there). -/
def normalize_timestamp (value : String) (coltype : TemporalType) : String :=
  let s :=
    if coltype.rounds then
      "date_format(cast(" ++ value ++ " as timestamp(6)), '%Y-%m-%d %H:%i:%S.%f')"
    else
      "date_format(cast(" ++ value ++ " as timestamp(6)), '%Y-%m-%d %H:%i:%S.%f')"
  "RPAD(RPAD(" ++ s ++ ", " ++ toString (TIMESTAMP_PRECISION_POS + coltype.precision)
    ++ ", '.'), " ++ toString (TIMESTAMP_PRECISION_POS + 6) ++ ", '0')"

/-- Semantics of Presto's `RPAD(s, size, pad)` with a one-character pad: pad on
the right up to `size` characters, truncating to `size` when the input is
longer. -/
def rpad (s : List Char) (size : Nat) (pad : Char) : List Char :=
  if size ≤ s.length then s.take size
  else s ++ List.replicate (size - s.length) pad

/- ===================== _normalize_table_path ===================== -/

/-- `Athena._normalize_table_path` (athena.py lines 222-230): the branches on
`len(path)` are mirrored as list patterns; the fall-through `raise ValueError`
becomes the `Except.error` case. -/
def normalize_table_path (default_schema : String) (path : List String) :
    Except String (String × String) :=
  match path with
  | [a] => Except.ok (default_schema, a)
  | [a, b] => Except.ok (a, b)
  | _ :: b :: c :: _ => Except.ok (b, c)
  | [] =>
    Except.error ("Athena: Bad table path for self: '"
      ++ String.intercalate "." path ++ "'. Expected form: schema.table")

/- ===================== query_cursor ===================== -/

/-- Case-insensitive prefix test: `sql.lower().startswith(kw)` for a lowercase
keyword `kw`, which is also the meaning of Python's anchored
`re.match(kw, sql, re.IGNORECASE)` for an alphabetic keyword. -/
def starts_ci (sql kw : String) : Bool :=
  kw.data.isPrefixOf (sql.data.map Char.toLower)

/-- The alternation of the mutating-statement regex in `query_cursor`
(athena.py line 47). -/
def mutating_keywords : List String :=
  ["insert", "create", "truncate", "drop", "explain"]

/-- A database cursor after `execute`: the rows still pending to be fetched. -/
structure Cursor (α : Type) where
  pending : List α
deriving DecidableEq

/-- `cursor.fetchall()`: return every pending row and drain the cursor. -/
def Cursor.fetchall (c : Cursor α) : List α × Cursor α :=
  (c.pending, ⟨[]⟩)

/-- `cursor.fetchone()`: return the first pending row (or `none`) and consume it. -/
def Cursor.fetchone (c : Cursor α) : Option α × Cursor α :=
  match c.pending with
  | [] => (none, ⟨[]⟩)
  | x :: xs => (some x, ⟨xs⟩)

/-- The value returned by `query_cursor`: all rows (`select`), a single fetched
row (mutating statements), or Python's implicit `None`. -/
inductive QueryResult (α : Type) where
  | all (rows : List α)
  | one (row : Option α)
  | noRes
deriving DecidableEq

/-- `query_cursor` (athena.py lines 42-48).  `exec` gives the rows the
underlying `c.execute(sql_code)` makes available on the cursor. -/
def query_cursor (exec : String → List α) (sql_code : String) :
    QueryResult α × Cursor α :=
  let c : Cursor α := ⟨exec sql_code⟩
  if starts_ci sql_code "select" then
    let r := c.fetchall
    (QueryResult.all r.1, r.2)
  else if mutating_keywords.any (starts_ci sql_code) then
    let r := c.fetchone
    (QueryResult.one r.1, r.2)
  else
    (QueryResult.noRes, c)

/- ===================== parse_type ===================== -/

/-- Full match of a pattern `pre (.+) suf` (greedy, anchored at both ends, as
`data_diff.utils.match_regexps` anchors with `$`): `some` of the nonempty
middle. -/
def between (pre suf s : List Char) : Option (List Char) :=
  if pre.isPrefixOf s then
    let t := s.drop pre.length
    if suf.isSuffixOf t then
      let m := t.take (t.length - suf.length)
      if m.isEmpty then none else some m
    else none
  else none

/-- The capture group `(\d)`: exactly one digit. -/
def digitArg : Option (List Char) → Option Nat
  | some [d] => if d.isDigit then some (d.toNat - 48) else none
  | _ => none

/-- Decimal reading of a digit string. -/
def digitsToNat (ds : List Char) : Nat :=
  ds.foldl (fun a c => 10 * a + (c.toNat - 48)) 0

/-- The capture group `(\d+)`: a nonempty digit string. -/
def digitsArg : Option (List Char) → Option Nat
  | some m => if !m.isEmpty && m.all Char.isDigit then some (digitsToNat m) else none
  | none => none

/-- The capture groups of `decimal\((\d+),(\d+)\)` applied to the middle of the
parentheses: `(precision, scale)`. -/
def decimalArgs : Option (List Char) → Option (Nat × Nat)
  | some m =>
    let d1 := m.takeWhile Char.isDigit
    match m.dropWhile Char.isDigit with
    | ',' :: d2 =>
      if !d1.isEmpty && !d2.isEmpty && d2.all Char.isDigit then
        some (digitsToNat d1, digitsToNat d2)
      else none
    | _ => none
  | none => none

/-- `[f.split(":") for f in inner.split(",")]` (athena.py line 134): the struct
fields are kept as raw colon-split strings. -/
def structFields (m : List Char) : List (List String) :=
  (m.splitOn ',').map (fun f => (f.splitOn ':').map (fun cs => (⟨cs⟩ : String)))

def tsPre : List Char := ['t', 'i', 'm', 'e', 's', 't', 'a', 'm', 'p', '(']

def tzSuf : List Char := [')', ' ', 'w', 'i', 't', 'h', ' ', 't', 'i', 'm', 'e', ' ', 'z', 'o', 'n', 'e']

def decPre : List Char := ['d', 'e', 'c', 'i', 'm', 'a', 'l', '(']

def arrPre : List Char := ['a', 'r', 'r', 'a', 'y', '(']

def strPre : List Char := ['s', 't', 'r', 'u', 'c', 't', '<']

def vcPre : List Char := ['v', 'a', 'r', 'c', 'h', 'a', 'r', '(']

def chPre : List Char := ['c', 'h', 'a', 'r', '(']

def rparen : List Char := [')']

def rangle : List Char := ['>']

/-- The `ColType` variants reachable through the Athena dialect (mirroring
`data_diff.abcs.database_types`).  `struct` carries the raw colon-split string
fields exactly as `Dialect.parse_type` builds them. -/
inductive ColType where
  | timestamp (precision : Nat) (rounds : Bool)
  | timestampTZ (precision : Nat) (rounds : Bool)
  | integer
  | float
  | decimal (scale : Nat)
  | text
  | boolean
  | json
  | array (item_type : ColType)
  | struct (fields : List (List String))
  | unknown (data_type : String)
deriving DecidableEq

/-- `data_diff.schema.RawColumnInfo`, restricted to the fields `parse_type`
reads. -/
structure RawColumnInfo where
  data_type : String
  datetime_precision : Option Nat
  numeric_precision : Option Nat
  numeric_scale : Option Nat
deriving DecidableEq

/-- Modelled from the spec: `BaseDialect.parse_type` of
`data_diff.databases.base` is not in `src/`.  Per the spec it is a
deterministic lookup of the native type name; the lookup table is the dialect's
own `TYPE_CLASSES` (athena.py lines 61-81), temporal classes are instantiated
with `rounds = ROUNDS_ON_PREC_LOSS` and the declared datetime precision, and
unknown type strings fall through to an unsupported-type value.  The bare
`array`/`struct` keys take no nested type and are modelled as unsupported. -/
def base_parse_type (info : RawColumnInfo) : ColType :=
  if info.data_type = "timestamp with time zone" then
    ColType.timestampTZ (info.datetime_precision.getD 6) ROUNDS_ON_PREC_LOSS
  else if info.data_type = "timestamp without time zone" || info.data_type = "timestamp" then
    ColType.timestamp (info.datetime_precision.getD 6) ROUNDS_ON_PREC_LOSS
  else if info.data_type = "integer" || info.data_type = "bigint" then
    ColType.integer
  else if info.data_type = "real" || info.data_type = "double" then
    ColType.float
  else if info.data_type = "decimal" then
    ColType.decimal (info.numeric_scale.getD 0)
  else if info.data_type = "varchar" || info.data_type = "string" then
    ColType.text
  else if info.data_type = "boolean" then
    ColType.boolean
  else if info.data_type = "json" then
    ColType.json
  else
    ColType.unknown info.data_type

theorem between_some_length {pre suf s m : List Char}
    (h : between pre suf s = some m) :
    m.length + (pre.length + suf.length) = s.length := by
  unfold between at h
  by_cases hp : pre.isPrefixOf s
  · have hple : pre.length ≤ s.length :=
      (List.isPrefixOf_iff_prefix.mp hp).length_le
    rw [if_pos hp] at h
    by_cases hs : suf.isSuffixOf (s.drop pre.length)
    · have hsle : suf.length ≤ (s.drop pre.length).length :=
        (List.isSuffixOf_iff_suffix.mp hs).length_le
      rw [if_pos hs] at h
      dsimp only [] at h
      split at h
      · exact absurd h (by simp)
      · injection h with h
        have := congrArg List.length h
        simp only [List.length_take, List.length_drop] at this hsle
        omega
    · rw [if_neg hs] at h
      exact absurd h (by simp)
  · rw [if_neg hp] at h
    exact absurd h (by simp)

theorem between_length_lt {pre suf s m : List Char}
    (hpre : pre ≠ []) (h : between pre suf s = some m) :
    m.length < s.length := by
  have hlen := between_some_length h
  have : 0 < pre.length := List.length_pos.mpr hpre
  omega

/-- `Dialect.parse_type` (athena.py lines 111-142), with `table_path` dropped
(it is only threaded through to the recursive call).  Each regex of the source
is matched in source order; the `array(...)` branch recurses on the captured
inner type string with the other `RawColumnInfo` fields carried over
(`attrs.evolve`). -/
def parse_type (info : RawColumnInfo) : ColType :=
  match digitArg (between tsPre rparen info.data_type.data) with
  | some p => ColType.timestamp p ROUNDS_ON_PREC_LOSS
  | none =>
  match digitArg (between tsPre tzSuf info.data_type.data) with
  | some p => ColType.timestampTZ p ROUNDS_ON_PREC_LOSS
  | none =>
  match decimalArgs (between decPre rparen info.data_type.data) with
  | some ps => ColType.decimal ps.2
  | none =>
  match hm : between arrPre rparen info.data_type.data with
  | some mid => ColType.array (parse_type { info with data_type := ⟨mid⟩ })
  | none =>
  match between strPre rangle info.data_type.data with
  | some mid => ColType.struct (structFields mid)
  | none =>
  match digitsArg (between vcPre rparen info.data_type.data) with
  | some _ => ColType.text
  | none =>
  match digitsArg (between chPre rparen info.data_type.data) with
  | some _ => ColType.text
  | none => base_parse_type info
termination_by info.data_type.data.length
decreasing_by
  exact between_length_lt (by decide) hm

/-- `true` iff every `timestamp`/`timestampTZ` node inside the column type has
its `rounds` flag set. -/
def roundsAllTrue : ColType → Bool
  | ColType.timestamp _ r => r
  | ColType.timestampTZ _ r => r
  | ColType.array t => roundsAllTrue t
  | _ => true

/- ===================== jsonify (report projector) ===================== -/

/-- A JSON value; object keys are in emission order, as in the Python dicts the
report projector builds. -/
inductive Json where
  | null
  | bool (b : Bool)
  | str (s : String)
  | arr (xs : List Json)
  | obj (kvs : List (String × Json))

/-- `data_diff.diff_tables.TableSegment`, restricted to the fields the report
projector reads. -/
structure TableSegment where
  table_path : List String
  key_columns : List String

/-- One row of `SegmentInfo.diff`, under the schema of the tests
(`is_exclusive_a`, `is_exclusive_b`, per-column `is_diff_*` flags, then the
per-column `*_a`/`*_b` values, `None` rendered as `Option.none`). -/
structure DiffRow where
  is_exclusive_a : Bool
  is_exclusive_b : Bool
  is_diff : List Bool
  vals_a : List (Option String)
  vals_b : List (Option String)

/-- `data_diff.diff_tables.SegmentInfo`, restricted to what `jsonify` reads:
the two compared table segments, the compared column names (in diff-schema
order), and the materialized diff rows. -/
structure SegmentInfo where
  tables : List TableSegment
  columns : List String
  diff : List DiffRow

/-- `data_diff.diff_tables.InfoTree`: the root `SegmentInfo`. -/
structure InfoTree where
  info : SegmentInfo

/-- `data_diff.diff_tables.DiffResultWrapper`, restricted to what `jsonify`
reads. -/
structure DiffResultWrapper where
  info_tree : InfoTree

def valueJson : Option String → Json
  | none => Json.null
  | some s => Json.str s

/-- One entry of `rows.exclusive.dataset1`/`dataset2`: each column maps to
`{isPK, value}`. -/
def exclusiveRowJson (keys cols : List String) (vals : List (Option String)) : Json :=
  Json.obj ((cols.zip vals).map (fun cv =>
    (cv.1, Json.obj [("isPK", Json.bool (keys.contains cv.1)),
                     ("value", valueJson cv.2)])))

/-- One entry of `rows.diff`: each column maps to
`{isPK, dataset1, dataset2, isDiff}`. -/
def diffRowJson (keys cols : List String) (r : DiffRow) : Json :=
  Json.obj ((cols.zip (r.is_diff.zip (r.vals_a.zip r.vals_b))).map (fun x =>
    (x.1, Json.obj [("isPK", Json.bool (keys.contains x.1)),
                    ("dataset1", valueJson x.2.2.1),
                    ("dataset2", valueJson x.2.2.2),
                    ("isDiff", Json.bool x.2.1)])))

/-- The `dataset1`/`dataset2` field: the i-th table's path as a string list. -/
def tablePathJson (ts : List TableSegment) (i : Nat) : Json :=
  match ts.get? i with
  | none => Json.null
  | some t => Json.arr (t.table_path.map Json.str)

/-- Modelled from the spec: `data_diff.format.jsonify` is not in `src/`.  Per
spec section 6 (and the shape asserted by `src/tests/test_format.py`), the
report carries `version`, `status`, `result` (`"identical"` iff no diff rows),
`model`, the two table paths, the exclusive rows of each side keyed by column
with `isPK`/`value`, the value-diff rows keyed by column with
`isPK`/`dataset1`/`dataset2`/`isDiff`, and `summary`/`columns` as `null` when
not computed. -/
def jsonify (w : DiffResultWrapper) (dbt_model : String) : Json :=
  let info := w.info_tree.info
  let keys := (info.tables.head?.elim [] TableSegment.key_columns)
  let excl1 := (info.diff.filter (fun r => r.is_exclusive_a)).map
    (fun r => exclusiveRowJson keys info.columns r.vals_a)
  let excl2 := (info.diff.filter (fun r => r.is_exclusive_b)).map
    (fun r => exclusiveRowJson keys info.columns r.vals_b)
  let diffs := (info.diff.filter (fun r => !r.is_exclusive_a && !r.is_exclusive_b)).map
    (diffRowJson keys info.columns)
  Json.obj
    [("version", Json.str "1.0.0"),
     ("status", Json.str "success"),
     ("result", Json.str (if info.diff.isEmpty then "identical" else "different")),
     ("model", Json.str dbt_model),
     ("dataset1", tablePathJson info.tables 0),
     ("dataset2", tablePathJson info.tables 1),
     ("rows", Json.obj
       [("exclusive", Json.obj
         [("dataset1", Json.arr excl1),
          ("dataset2", Json.arr excl2)]),
        ("diff", Json.arr diffs)]),
     ("summary", Json.null),
     ("columns", Json.null)]

/-- The input of `TestFormat.test_jsonify_diff` (test_format.py lines 10-37):
two tables `db.schema.table1`/`db.schema.table2` with key column `id`, and the
three diff rows of the test read under its diff schema `(is_exclusive_a,
is_exclusive_b, is_diff_id, is_diff_value, id_a, id_b, value_a, value_b)`. -/
def testDiffWrapper : DiffResultWrapper :=
  ⟨⟨⟨[⟨["db", "schema", "table1"], ["id"]⟩, ⟨["db", "schema", "table2"], ["id"]⟩],
     ["id", "value"],
     [⟨false, false, [false, true], [some "1", some "3"], [some "1", some "201"]⟩,
      ⟨true, false, [true, true], [some "2", some "4"], [none, none]⟩,
      ⟨false, true, [true, true], [none, none], [some "3", some "202"]⟩]⟩⟩⟩

/-- The input of `TestFormat.test_jsonify_diff_no_difeference` (test_format.py
lines 65-88): the same two tables with an empty diff row list. -/
def testEmptyWrapper : DiffResultWrapper :=
  ⟨⟨⟨[⟨["db", "schema", "table1"], ["id"]⟩, ⟨["db", "schema", "table2"], ["id"]⟩],
     ["id", "value"],
     []⟩⟩⟩

/- ===================== Helper lemmas ===================== -/

theorem rpad_eq (s : List Char) (size : Nat) (pad : Char) :
    rpad s size pad = s.take size ++ List.replicate (size - s.length) pad := by
  unfold rpad
  split
  · rename_i h
    rw [Nat.sub_eq_zero_of_le h]
    simp
  · rename_i h
    push_neg at h
    rw [List.take_of_length_le (le_of_lt h)]

theorem rpad_length (s : List Char) (size : Nat) (pad : Char) :
    (rpad s size pad).length = size := by
  rw [rpad_eq]
  simp only [List.length_append, List.length_take, List.length_replicate]
  omega

theorem length_toHexDigits (w : Nat) : ∀ n, (toHexDigits w n).length = w := by
  induction w with
  | zero => intro n; rfl
  | succ w ih => intro n; simp [toHexDigits, ih]

theorem fromBase16_append (ds : List Nat) (d : Nat) :
    fromBase16 (ds ++ [d]) = 16 * fromBase16 ds + d := by
  simp [fromBase16, List.foldl_append]

theorem fromBase16_toHexDigits (w : Nat) : ∀ n, fromBase16 (toHexDigits w n) = n % 16 ^ w := by
  induction w with
  | zero => intro n; simp [toHexDigits, fromBase16, Nat.mod_one]
  | succ w ih =>
    intro n
    rw [toHexDigits, fromBase16_append, ih]
    have h16 : (16 : Nat) ^ (w + 1) = 16 * 16 ^ w := by
      rw [pow_succ]; ring
    rw [h16, Nat.mod_mul]
    ring

theorem toHexDigits_add (a b : Nat) :
    ∀ n, toHexDigits (a + b) n = toHexDigits a (n / 16 ^ b) ++ toHexDigits b n := by
  induction b with
  | zero => intro n; simp [toHexDigits]
  | succ b ih =>
    intro n
    show toHexDigits ((a + b) + 1) n = _
    rw [toHexDigits, ih]
    conv_rhs => rw [toHexDigits]
    rw [List.append_assoc]
    congr 2
    rw [Nat.div_div_eq_div_mul, pow_succ, Nat.mul_comm]

theorem drop_toHexDigits (a b n : Nat) :
    List.drop a (toHexDigits (a + b) n) = toHexDigits b n := by
  rw [toHexDigits_add a b n]
  have h := List.drop_left (toHexDigits a (n / 16 ^ b)) (toHexDigits b n)
  rwa [length_toHexDigits] at h

theorem isPrefixOf_head_eq {c₁ c₂ : Char} {p₁ p₂ t : List Char}
    (h₁ : (c₁ :: p₁).isPrefixOf t = true) (h₂ : (c₂ :: p₂).isPrefixOf t = true) :
    c₁ = c₂ := by
  cases t with
  | nil => simp [List.isPrefixOf] at h₁
  | cons c cs =>
    simp only [List.isPrefixOf, Bool.and_eq_true, beq_iff_eq] at h₁ h₂
    exact h₁.1.trans h₂.1.symm

theorem mutating_not_select {sql : String}
    (h : mutating_keywords.any (starts_ci sql) = true) :
    starts_ci sql "select" = false := by
  by_contra hsel
  rw [Bool.not_eq_false] at hsel
  simp only [mutating_keywords, List.any_cons, List.any_nil,
    Bool.or_eq_true, Bool.or_false] at h
  unfold starts_ci at h hsel
  rw [show ("select" : String).data = 's' :: "elect".data from rfl] at hsel
  rcases h with h | h | h | h | h
  · rw [show ("insert" : String).data = 'i' :: "nsert".data from rfl] at h
    exact absurd (isPrefixOf_head_eq h hsel) (by decide)
  · rw [show ("create" : String).data = 'c' :: "reate".data from rfl] at h
    exact absurd (isPrefixOf_head_eq h hsel) (by decide)
  · rw [show ("truncate" : String).data = 't' :: "runcate".data from rfl] at h
    exact absurd (isPrefixOf_head_eq h hsel) (by decide)
  · rw [show ("drop" : String).data = 'd' :: "rop".data from rfl] at h
    exact absurd (isPrefixOf_head_eq h hsel) (by decide)
  · rw [show ("explain" : String).data = 'e' :: "xplain".data from rfl] at h
    exact absurd (isPrefixOf_head_eq h hsel) (by decide)

/- ===================== Claim theorems C1-C5, C7 ===================== -/

/-- C1: for every input expression `s`, the Athena dialect's `md5_as_int s`
emits the checksum expression that MD5-hashes the UTF-8 bytes of `s`, keeps
only the trailing `CHECKSUM_HEXDIGITS` hex digits of the 32-digit hex digest
(substring starting at 1-based position
`1 + MD5_HEXDIGITS - CHECKSUM_HEXDIGITS`), reads them back in base 16 as a
`decimal(38, 0)` integer, and subtracts `CHECKSUM_OFFSET`: the emitted SQL has
exactly that shape, and its denotation on any MD5 digest value is the digest
truncated to the trailing `CHECKSUM_HEXDIGITS` hex digits minus the offset. -/
theorem md5_as_int_spec (s : String) (digest : Nat) :
    md5_as_int s =
      "cast(from_base(substr(to_hex(md5(to_utf8(" ++ s ++ "))), "
        ++ toString (1 + MD5_HEXDIGITS - CHECKSUM_HEXDIGITS)
        ++ "), 16) as decimal(38, 0)) - " ++ toString CHECKSUM_OFFSET
    ∧ md5_as_int_sem digest
      = ((digest % 16 ^ CHECKSUM_HEXDIGITS : Nat) : Int) - (CHECKSUM_OFFSET : Int) := by
  constructor
  · rfl
  · have e1 : (1 + MD5_HEXDIGITS - CHECKSUM_HEXDIGITS) - 1 = 16 := by decide
    have e2 : MD5_HEXDIGITS = 16 + 16 := by decide
    have e3 : CHECKSUM_HEXDIGITS = 16 := by decide
    unfold md5_as_int_sem substr1
    rw [e1, e2, e3, drop_toHexDigits, fromBase16_toHexDigits]

/-- C2: for every value expression and temporal column type of precision `p`,
`normalize_timestamp` formats at microsecond precision and right-pads the
result, first with `'.'` to length `TIMESTAMP_PRECISION_POS + p`, then with
`'0'` to total length `TIMESTAMP_PRECISION_POS + 6`; consequently (second
conjunct, via the `RPAD` semantics) a formatted string of the engine's full
width comes out truncated to the column's precision and zero-padded on the
right back to the maximum width of 6 sub-second digits. -/
theorem normalize_timestamp_pads (value : String) (t : TemporalType) :
    normalize_timestamp value t =
      "RPAD(RPAD("
        ++ ("date_format(cast(" ++ value ++ " as timestamp(6)), '%Y-%m-%d %H:%i:%S.%f')")
        ++ ", " ++ toString (TIMESTAMP_PRECISION_POS + t.precision)
        ++ ", '.'), " ++ toString (TIMESTAMP_PRECISION_POS + 6) ++ ", '0')"
    ∧ ∀ (s : List Char) (p : Nat), p ≤ 6 → s.length = TIMESTAMP_PRECISION_POS + 6 →
        rpad (rpad s (TIMESTAMP_PRECISION_POS + p) '.') (TIMESTAMP_PRECISION_POS + 6) '0'
          = s.take (TIMESTAMP_PRECISION_POS + p) ++ List.replicate (6 - p) '0' := by
  constructor
  · obtain ⟨p, r⟩ := t
    cases r <;> rfl
  · intro s p hp hs
    rw [rpad_eq, rpad_eq]
    have hz : TIMESTAMP_PRECISION_POS + p - s.length = 0 := by
      rw [hs]; omega
    rw [hz]
    simp only [List.replicate_zero, List.append_nil]
    have hlen : (s.take (TIMESTAMP_PRECISION_POS + p)).length = TIMESTAMP_PRECISION_POS + p := by
      simp only [List.length_take]
      rw [hs]
      omega
    rw [List.take_of_length_le (by rw [hlen]; omega), hlen]
    congr 1
    rw [show TIMESTAMP_PRECISION_POS + 6 - (TIMESTAMP_PRECISION_POS + p) = 6 - p from by omega]

/-- Witness for C2 at precision 3 and a concrete 26-character input. -/
theorem normalize_timestamp_pads_witness :
    (3 ≤ 6 ∧ (List.replicate 26 'x').length = TIMESTAMP_PRECISION_POS + 6)
    ∧ rpad (rpad (List.replicate 26 'x') (TIMESTAMP_PRECISION_POS + 3) '.')
        (TIMESTAMP_PRECISION_POS + 6) '0'
      = (List.replicate 26 'x').take (TIMESTAMP_PRECISION_POS + 3)
        ++ List.replicate (6 - 3) '0' :=
  ⟨⟨by decide, by decide⟩,
   (normalize_timestamp_pads "v" ⟨3, true⟩).2 (List.replicate 26 'x') 3 (by decide) (by decide)⟩

/-- C3: `normalize_timestamp` returns character-identical SQL whether the
column type's `rounds` flag is true or false: both branches of the source's
conditional build the same expression. -/
theorem normalize_timestamp_rounds_independent (value : String) (p : Nat) :
    normalize_timestamp value ⟨p, true⟩ = normalize_timestamp value ⟨p, false⟩ := rfl

/-- C4 counterexample: on the 4-component path `catalog.a.b.c` the code returns
the second and third components `(a, b)`, not the last two `(b, c)` as the
claim states. -/
theorem normalize_table_path_not_last_two :
    normalize_table_path "public" ["catalog", "a", "b", "c"] = Except.ok ("a", "b")
    ∧ normalize_table_path "public" ["catalog", "a", "b", "c"] ≠ Except.ok ("b", "c") := by
  constructor
  · rfl
  · intro h
    simp [normalize_table_path] at h

/-- C4 (amended): a 1-component path normalizes to (default schema, component);
a 2-component path is returned unchanged; a path of 3 or more components
normalizes to its second and third components (for exactly 3 components these
are the last two, dropping the leading catalog component). -/
theorem normalize_table_path_cases (d : String) :
    (∀ a, normalize_table_path d [a] = Except.ok (d, a))
    ∧ (∀ a b, normalize_table_path d [a, b] = Except.ok (a, b))
    ∧ (∀ a b c rest, normalize_table_path d (a :: b :: c :: rest) = Except.ok (b, c)) :=
  ⟨fun _ => rfl, fun _ _ => rfl, fun _ _ _ _ => rfl⟩

/-- C5: table-path normalization returns an error exactly on the empty path,
and any path with at least one component yields a (schema, table) pair. -/
theorem normalize_table_path_error_iff (d : String) (path : List String) :
    ((∃ e, normalize_table_path d path = Except.error e) ↔ path = [])
    ∧ (path ≠ [] → ∃ pr, normalize_table_path d path = Except.ok pr) := by
  constructor
  · constructor
    · intro he
      obtain ⟨e, he⟩ := he
      match path with
      | [] => rfl
      | [a] => simp [normalize_table_path] at he
      | [a, b] => simp [normalize_table_path] at he
      | a :: b :: c :: rest => simp [normalize_table_path] at he
    · rintro rfl
      exact ⟨_, rfl⟩
  · intro hne
    match path with
    | [] => exact absurd rfl hne
    | [a] => exact ⟨_, rfl⟩
    | [a, b] => exact ⟨_, rfl⟩
    | a :: b :: c :: rest => exact ⟨_, rfl⟩

/-- Witness for C5 at the 1-component path `["t"]`. -/
theorem normalize_table_path_error_iff_witness :
    (["t"] : List String) ≠ []
    ∧ ∃ pr, normalize_table_path "public" ["t"] = Except.ok pr :=
  ⟨by decide, (normalize_table_path_error_iff "public" ["t"]).2 (by decide)⟩

/-- C7: a statement starting with `select` (case-insensitive) has all its rows
fetched and returned, and the cursor is fully drained; a statement starting
with one of `insert`, `create`, `truncate`, `drop`, `explain`
(case-insensitive) still has a single row fetched from the cursor. -/
theorem query_cursor_drains {α : Type} (exec : String → List α) (sql : String) :
    (starts_ci sql "select" = true →
      query_cursor exec sql = (QueryResult.all (exec sql), ⟨[]⟩))
    ∧ (mutating_keywords.any (starts_ci sql) = true →
      query_cursor exec sql = (QueryResult.one (exec sql).head?, ⟨(exec sql).tail⟩)) := by
  constructor
  · intro h
    unfold query_cursor
    rw [if_pos h]
    rfl
  · intro h
    unfold query_cursor
    rw [if_neg (by rw [mutating_not_select h]; exact Bool.false_ne_true), if_pos h]
    cases hex : exec sql with
    | nil => simp [Cursor.fetchone, hex]
    | cons x xs => simp [Cursor.fetchone, hex]

/-- Witness for C7 on a concrete `SELECT` and a concrete `Insert`. -/
theorem query_cursor_drains_witness :
    starts_ci "SELECT 1" "select" = true
    ∧ query_cursor (fun _ => [0, 1]) "SELECT 1" = (QueryResult.all [0, 1], ⟨[]⟩)
    ∧ mutating_keywords.any (starts_ci "Insert into t") = true
    ∧ query_cursor (fun _ => [7]) "Insert into t" = (QueryResult.one (some 7), ⟨[]⟩) := by
  refine ⟨by decide, ?_, by decide, ?_⟩
  · exact (query_cursor_drains (fun _ => [0, 1]) "SELECT 1").1 (by decide)
  · have h := (query_cursor_drains (fun _ => [7]) "Insert into t").2 (by decide)
    simpa using h

/- ===================== parse_type lemmas ===================== -/

theorem between_ne_head {c c' : Char} (p suf l : List Char) (h : c ≠ c') :
    between (c :: p) suf (c' :: l) = none := by
  have hnp : ¬((c :: p).isPrefixOf (c' :: l) = true) := by
    simp only [List.isPrefixOf, Bool.and_eq_true, beq_iff_eq]
    intro hc
    exact h hc.1
  unfold between
  rw [if_neg hnp]

theorem between_exact (pre suf mid : List Char) (h : mid ≠ []) :
    between pre suf (pre ++ mid ++ suf) = some mid := by
  have hp : pre.isPrefixOf (pre ++ mid ++ suf) = true := by
    rw [List.append_assoc]
    exact List.isPrefixOf_iff_prefix.mpr (List.prefix_append _ _)
  have hdrop : (pre ++ mid ++ suf).drop pre.length = mid ++ suf := by
    rw [List.append_assoc]
    exact List.drop_left _ _
  have hs : suf.isSuffixOf (mid ++ suf) = true :=
    List.isSuffixOf_iff_suffix.mpr (List.suffix_append _ _)
  have hlen : (mid ++ suf).length - suf.length = mid.length := by
    simp [List.length_append]
  have htake : (mid ++ suf).take ((mid ++ suf).length - suf.length) = mid := by
    rw [hlen]
    exact List.take_left _ _
  have hne : ¬(mid.isEmpty = true) := by
    cases mid with
    | nil => exact absurd rfl h
    | cons x xs => simp [List.isEmpty]
  unfold between
  dsimp only []
  rw [if_pos hp, hdrop, if_pos hs, htake, if_neg hne]

theorem parse_type_array_eq (info : RawColumnInfo) (mid : List Char)
    (h : info.data_type.data = arrPre ++ mid ++ rparen) (hm : mid ≠ []) :
    parse_type info = ColType.array (parse_type { info with data_type := ⟨mid⟩ }) := by
  have hts : between tsPre rparen info.data_type.data = none := by
    rw [h]
    simp only [tsPre, arrPre, rparen, List.cons_append, List.nil_append]
    exact between_ne_head _ _ _ (by decide)
  have htz : between tsPre tzSuf info.data_type.data = none := by
    rw [h]
    simp only [tsPre, arrPre, tzSuf, List.cons_append, List.nil_append]
    exact between_ne_head _ _ _ (by decide)
  have hdec : between decPre rparen info.data_type.data = none := by
    rw [h]
    simp only [decPre, arrPre, List.cons_append, List.nil_append]
    exact between_ne_head _ _ _ (by decide)
  have harr : between arrPre rparen info.data_type.data = some mid := by
    rw [h]
    exact between_exact _ _ _ hm
  rw [parse_type.eq_def]
  simp only [hts, htz, hdec, harr, digitArg, decimalArgs]
  split
  · rename_i mid' hm'
    rw [harr] at hm'
    injection hm' with hm'
    rw [hm']
  · rename_i hm'
    rw [harr] at hm'
    exact absurd hm' (by simp)

theorem parse_type_struct_eq (info : RawColumnInfo) (mid : List Char)
    (h : info.data_type.data = strPre ++ mid ++ rangle) (hm : mid ≠ []) :
    parse_type info = ColType.struct (structFields mid) := by
  have hts : between tsPre rparen info.data_type.data = none := by
    rw [h]
    simp only [tsPre, strPre, rangle, List.cons_append, List.nil_append]
    exact between_ne_head _ _ _ (by decide)
  have htz : between tsPre tzSuf info.data_type.data = none := by
    rw [h]
    simp only [tsPre, strPre, tzSuf, rangle, List.cons_append, List.nil_append]
    exact between_ne_head _ _ _ (by decide)
  have hdec : between decPre rparen info.data_type.data = none := by
    rw [h]
    simp only [decPre, strPre, rangle, List.cons_append, List.nil_append]
    exact between_ne_head _ _ _ (by decide)
  have harr : between arrPre rparen info.data_type.data = none := by
    rw [h]
    simp only [arrPre, strPre, rangle, List.cons_append, List.nil_append]
    exact between_ne_head _ _ _ (by decide)
  have hstr : between strPre rangle info.data_type.data = some mid := by
    rw [h]
    exact between_exact _ _ _ hm
  rw [parse_type.eq_def]
  simp only [hts, htz, hdec, harr, hstr, digitArg, decimalArgs]
  split
  · rename_i mid' hm'
    rw [harr] at hm'
    exact absurd hm'.symm (by simp)
  · rfl

theorem base_parse_type_rounds (info : RawColumnInfo) :
    roundsAllTrue (base_parse_type info) = true := by
  unfold base_parse_type
  repeat' split
  all_goals rfl

/- ===================== Claim theorems C6, C10 ===================== -/

/-- C6 counterexample: on the native type string `struct<a:integer,b:varchar(4)>`
the parser keeps each field as raw colon-split text (`["a", "integer"]`,
`["b", "varchar(4)"]`); the field types are not recursively parsed into
`ColType` values, contradicting the claim for Struct. -/
theorem parse_type_struct_raw_cex :
    parse_type ⟨"struct<a:integer,b:varchar(4)>", none, none, none⟩
      = ColType.struct [["a", "integer"], ["b", "varchar(4)"]] := by
  have h : (⟨"struct<a:integer,b:varchar(4)>", none, none, none⟩ :
      RawColumnInfo).data_type.data
      = strPre ++ ("a:integer,b:varchar(4)" : String).data ++ rangle := rfl
  rw [parse_type_struct_eq _ _ h (by decide)]
  decide

/-- C6 (amended): `parse_type` extracts nested element types by recursive
parsing for Array only: for `array(T)` the inner type string `T` is itself
parsed with `parse_type`; for `struct<...>` each field is kept as the raw
unparsed colon-split strings, not recursively parsed into a `ColType`. -/
theorem parse_type_nested (T M : String) (info : RawColumnInfo)
    (hT : T.data ≠ []) (hM : M.data ≠ []) :
    parse_type { info with data_type := "array(" ++ T ++ ")" }
      = ColType.array (parse_type { info with data_type := T })
    ∧ parse_type { info with data_type := "struct<" ++ M ++ ">" }
      = ColType.struct (structFields M.data) := by
  constructor
  · have h : ({ info with data_type := "array(" ++ T ++ ")" } :
        RawColumnInfo).data_type.data = arrPre ++ T.data ++ rparen := rfl
    have h2 := parse_type_array_eq _ T.data h hT
    exact h2
  · have h : ({ info with data_type := "struct<" ++ M ++ ">" } :
        RawColumnInfo).data_type.data = strPre ++ M.data ++ rangle := rfl
    exact parse_type_struct_eq _ M.data h hM

/-- Witness for C6 (amended) on `array(integer)` and `struct<a:int>`. -/
theorem parse_type_nested_witness :
    ("integer" : String).data ≠ [] ∧ ("a:int" : String).data ≠ []
    ∧ parse_type ⟨"array(integer)", none, none, none⟩
      = ColType.array (parse_type ⟨"integer", none, none, none⟩)
    ∧ parse_type ⟨"struct<a:int>", none, none, none⟩
      = ColType.struct (structFields ("a:int" : String).data) := by
  refine ⟨by decide, by decide, ?_, ?_⟩
  · exact (parse_type_nested "integer" "a:int"
      ⟨"integer", none, none, none⟩ (by decide) (by decide)).1
  · exact (parse_type_nested "integer" "a:int"
      ⟨"integer", none, none, none⟩ (by decide) (by decide)).2

/-- C10: every column type produced by the Athena dialect's `parse_type` has
all of its `Timestamp`/`TimestampTZ` nodes built with
`rounds = ROUNDS_ON_PREC_LOSS = true`; no parse yields a temporal column type
with `rounds = false`. -/
theorem parse_type_rounds_true (info : RawColumnInfo) :
    roundsAllTrue (parse_type info) = true := by
  generalize hn : info.data_type.data.length = n
  induction n using Nat.strong_induction_on generalizing info with
  | _ n ih =>
    rw [parse_type.eq_def]
    split
    · rfl
    split
    · rfl
    split
    · rfl
    split
    · rename_i mid hm
      show roundsAllTrue (parse_type _) = true
      exact ih _ (hn ▸ between_length_lt (by decide) hm) _ rfl
    split
    · rfl
    split
    · rfl
    split
    · rfl
    exact base_parse_type_rounds info

/- ===================== Claim theorems C8, C9 ===================== -/

/-- C8: on the two-table, two-row difference example of the tests, `jsonify`
produces status `success`, result `different`, exactly one exclusive row per
side whose key field carries `isPK = true` and value field `isPK = false`, and
exactly one diff row whose value field has `isDiff = true` and whose key field
has `isDiff = false`. -/
theorem jsonify_diff_example :
    jsonify testDiffWrapper "my_model" = Json.obj
      [("version", Json.str "1.0.0"),
       ("status", Json.str "success"),
       ("result", Json.str "different"),
       ("model", Json.str "my_model"),
       ("dataset1", Json.arr [Json.str "db", Json.str "schema", Json.str "table1"]),
       ("dataset2", Json.arr [Json.str "db", Json.str "schema", Json.str "table2"]),
       ("rows", Json.obj
         [("exclusive", Json.obj
           [("dataset1", Json.arr
             [Json.obj
               [("id", Json.obj [("isPK", Json.bool true), ("value", Json.str "2")]),
                ("value", Json.obj [("isPK", Json.bool false), ("value", Json.str "4")])]]),
            ("dataset2", Json.arr
             [Json.obj
               [("id", Json.obj [("isPK", Json.bool true), ("value", Json.str "3")]),
                ("value", Json.obj [("isPK", Json.bool false), ("value", Json.str "202")])]])]),
          ("diff", Json.arr
            [Json.obj
              [("id", Json.obj
                [("isPK", Json.bool true), ("dataset1", Json.str "1"),
                 ("dataset2", Json.str "1"), ("isDiff", Json.bool false)]),
               ("value", Json.obj
                [("isPK", Json.bool false), ("dataset1", Json.str "3"),
                 ("dataset2", Json.str "201"), ("isDiff", Json.bool true)])]])]),
       ("summary", Json.null),
       ("columns", Json.null)] := rfl

/-- C9: for every diff result whose diff row list is empty, `jsonify` reports
result `identical` with `rows.exclusive.dataset1`, `rows.exclusive.dataset2`
and `rows.diff` all present as empty lists, never absent or null. -/
theorem jsonify_identical_empty (w : DiffResultWrapper) (m : String)
    (h : w.info_tree.info.diff = []) :
    jsonify w m = Json.obj
      [("version", Json.str "1.0.0"),
       ("status", Json.str "success"),
       ("result", Json.str "identical"),
       ("model", Json.str m),
       ("dataset1", tablePathJson w.info_tree.info.tables 0),
       ("dataset2", tablePathJson w.info_tree.info.tables 1),
       ("rows", Json.obj
         [("exclusive", Json.obj
           [("dataset1", Json.arr []), ("dataset2", Json.arr [])]),
          ("diff", Json.arr [])]),
       ("summary", Json.null),
       ("columns", Json.null)] := by
  unfold jsonify
  dsimp only []
  rw [h]
  rfl

/-- Witness for C9 on the empty-diff input of the tests. -/
theorem jsonify_identical_empty_witness :
    testEmptyWrapper.info_tree.info.diff = []
    ∧ jsonify testEmptyWrapper "model" = Json.obj
      [("version", Json.str "1.0.0"),
       ("status", Json.str "success"),
       ("result", Json.str "identical"),
       ("model", Json.str "model"),
       ("dataset1", tablePathJson testEmptyWrapper.info_tree.info.tables 0),
       ("dataset2", tablePathJson testEmptyWrapper.info_tree.info.tables 1),
       ("rows", Json.obj
         [("exclusive", Json.obj
           [("dataset1", Json.arr []), ("dataset2", Json.arr [])]),
          ("diff", Json.arr [])]),
       ("summary", Json.null),
       ("columns", Json.null)] :=
  ⟨rfl, jsonify_identical_empty testEmptyWrapper "model" rfl⟩
